import Mathlib

/-!
Verification development for the DocuSight ingestion / classification pipeline.

The definitions below are a shallow embedding of the Python sources in
`docusight/` (principally `file_utils.py`, `routers/insight.py` and
`routers/classification.py`).  The relational store is modelled as explicit
lists of rows, the staged filesystem as an inductive directory tree, and the
external collaborators (blob store, classification engine) as explicit
function parameters, following the contracts the sources assume of them.
Timestamps and classifier scores are opaque payloads here (modelled as `Nat`):
the program only copies them around, never computes with them.

String primitives (`lower`, `replace`, `split`, `endswith`, `int(...)`) are
implemented over character lists so that every definition evaluates inside
the kernel; scanning helpers take a fuel argument that callers instantiate
with the string length plus one, which is always sufficient because each
step consumes at least one character.
-/

namespace DocuSight

/-! ### String primitives -/

/-- Python `str.lower()` (ASCII, which covers every label and name involved). -/
def lowerString (s : String) : String := ⟨s.data.map Char.toLower⟩

def replaceChars (pat rep : List Char) : Nat → List Char → List Char
  | 0, l => l
  | _ + 1, [] => []
  | fuel + 1, c :: cs =>
    if pat.isPrefixOf (c :: cs) then rep ++ replaceChars pat rep fuel ((c :: cs).drop pat.length)
    else c :: replaceChars pat rep fuel cs

/-- Python `str.replace(pat, rep)`: replace every non-overlapping occurrence,
scanning left to right.  (The empty-pattern corner case never arises here.) -/
def pyReplace (s pat rep : String) : String :=
  match pat.data with
  | [] => s
  | c :: cs => ⟨replaceChars (c :: cs) rep.data (s.data.length + 1) s.data⟩

def splitChars (sep : List Char) : Nat → List Char → List Char → List (List Char)
  | 0, l, acc => [acc.reverse ++ l]
  | _ + 1, [], acc => [acc.reverse]
  | fuel + 1, c :: cs, acc =>
    if sep.isPrefixOf (c :: cs) then
      acc.reverse :: splitChars sep fuel ((c :: cs).drop sep.length) []
    else splitChars sep fuel cs (c :: acc)

/-- Python `str.split(sep)` for a non-empty separator (empty fields kept). -/
def strSplitOn (s sep : String) : List String :=
  match sep.data with
  | [] => [s]
  | c :: cs => (splitChars (c :: cs) (s.data.length + 1) s.data []).map (fun l => ⟨l⟩)

/-- Python `str.endswith(sfx)`. -/
def strEndsWith (s sfx : String) : Bool := sfx.data.isSuffixOf s.data

def digitsToNat? (l : List Char) : Option Nat :=
  if l = [] then none
  else l.foldl
    (fun acc c => acc.bind (fun a => if c.isDigit then some (a * 10 + (c.toNat - 48)) else none))
    (some 0)

/-- Python `int(s)` for the plain decimal strings the pipeline can feed it;
`none` models the raised `ValueError`. -/
def parseInt? (s : String) : Option Int :=
  match s.data with
  | '-' :: rest => (digitsToNat? rest).map (fun n => -(n : Int))
  | l => (digitsToNat? l).map (fun n => (n : Int))

/-! ### Data model (`docusight/models.py`) -/

/-- Row of the `users` table (fields relevant to the pipeline). -/
structure UserRow where
  id : Nat
  display_name : String
  email : String
deriving Repr, DecidableEq

/-- Row of the `folders` table. -/
structure FolderRow where
  id : Nat
  path : String
  name : String
  parent_id : Option Nat
  user_id : Option Nat
deriving Repr, DecidableEq

/-- Row of the `documents` table. -/
structure DocumentRow where
  id : Nat
  folder_id : Nat
  user_id : Option Nat
  filename : String
  path : String
  size : Nat
  created : Nat
  modified : Nat
  dropbox_path : Option String
  plain_text_size : Option Nat
deriving Repr, DecidableEq

/-- Row of the `classifications` table. -/
structure ClassificationRow where
  id : Nat
  document_id : Nat
  user_id : Option Nat
  label : String
  score : Nat
deriving Repr, DecidableEq

/-- The relational store: row lists in insertion order plus the id counters
the session assigns on flush/commit. -/
structure DB where
  folders : List FolderRow
  documents : List DocumentRow
  classifications : List ClassificationRow
  nextFolderId : Nat
  nextDocumentId : Nat
  nextClassificationId : Nat
deriving Repr, DecidableEq

def emptyDB : DB := ⟨[], [], [], 1, 1, 1⟩

/-! ### Settings (`docusight/config.py`) -/

/-- `settings.TEMP_DIR = APP_DIR / "temp"`, rendered as a path string. -/
def TEMP_DIR : String := "docusight/temp"

/-- `settings.UPLOAD_DIR`. -/
def UPLOAD_DIR : String := "/uploads"

/-- `settings.ZIP_FILE_READ_CHUNK_SIZE = 1024 * 1024`. -/
def ZIP_FILE_READ_CHUNK_SIZE : Nat := 1024 * 1024

/-- `settings.CLASSIFICATION_BATCH_SIZE`. -/
def CLASSIFICATION_BATCH_SIZE : Nat := 16

/-! ### Path helpers

Relative posix paths are strings whose segments are joined by `"/"`.
`splitPath` models `pathlib.Path(s).parts` for the ordinary relative paths
the pipeline manipulates. -/

def joinPath (segs : List String) : String :=
  match segs with
  | [] => ""
  | s :: rest => rest.foldl (fun acc x => acc ++ "/" ++ x) s

def splitPath (s : String) : List String := (strSplitOn s "/").filter (fun x => x ≠ "")

/-- Model of `pathlib.Path(name).suffix` for ordinary file names: the final
dot-suffix including the dot, empty when there is no dot, when the only dot
is the leading character, or when the name ends with a dot. -/
def pathSuffix (name : String) : String :=
  let parts := strSplitOn name "."
  match parts with
  | [] => ""
  | [_] => ""
  | _ =>
    let last := parts.getLastD ""
    if last = "" then ""
    else if parts.length = 2 && parts.headD "" = "" then ""
    else "." ++ last

/-- The file name with its `pathSuffix` removed, as used by `Path.with_suffix`. -/
def stemOf (name : String) : String :=
  ⟨name.data.take (name.data.length - (pathSuffix name).data.length)⟩

/-- Model of `path.with_suffix(".txt")`: for a name already ending in `.txt`
this is the name itself. -/
def withSuffixTxt (name : String) : String := stemOf name ++ ".txt"

/-! ### `generate_tmp_dir` (`file_utils.py`)

```
user_name_fmt = user.display_name.lower().replace(" ", "_")
return Path(settings.TEMP_DIR) / f"{user.id}_{user_name_fmt}"
```
The path is computed from the user row alone: there is no per-invocation
component (no uuid, counter or timestamp) in the source. -/
def generate_tmp_dir (user : UserRow) : String :=
  TEMP_DIR ++ "/" ++ toString user.id ++ "_" ++ pyReplace (lowerString user.display_name) " " "_"

/-! ### Folder path lookup (`file_utils.py: get_folder_by_segments`) -/

/-- The row filter built by `select(Folder).where(Folder.parent_id == parent_id,
Folder.user_id == user.id).where(Folder.name == segment)`. -/
def folderMatches (parentId : Option Nat) (uid : Nat) (seg : String) (f : FolderRow) : Bool :=
  f.parent_id == parentId && f.user_id == some uid && f.name == seg

/-- The loop body of `get_folder_by_segments`: iterate over the segments
carrying the resolved parent id and the last folder found; return `none` as
soon as a segment has no match, and the accumulated folder at the end. -/
def get_folder_by_segments_go (db : DB) (uid : Nat) :
    List String → Option Nat → Option FolderRow → Option FolderRow
  | [], _, folder => folder
  | seg :: rest, parentId, _ =>
    match db.folders.find? (folderMatches parentId uid seg) with
    | none => none
    | some f => get_folder_by_segments_go db uid rest (some f.id) (some f)

def get_folder_by_segments (db : DB) (user : UserRow) (segments : List String) :
    Option FolderRow :=
  get_folder_by_segments_go db user.id segments none none

def get_folder_by_path (db : DB) (user : UserRow) (path : String) : Option FolderRow :=
  get_folder_by_segments db user (splitPath path)

/-- Modelled from the spec words for the lookup contract: resolve a
slash-separated path one segment at a time; at each step search for a Folder
with the expected `parent_id` (null at the root) and an exact, case-sensitive
`name` match scoped to the requesting owner; any segment with no match
returns not-found immediately, and no partial match is ever returned. -/
def specFolderLookup (db : DB) (uid : Nat) : Option Nat → List String → Option FolderRow
  | _, [] => none
  | parentId, seg :: rest =>
    match db.folders.find? (folderMatches parentId uid seg) with
    | none => none
    | some f => if rest.isEmpty then some f else specFolderLookup db uid (some f.id) rest

theorem go_eq_spec (db : DB) (uid : Nat) :
    ∀ (segs : List String) (parentId : Option Nat) (acc : Option FolderRow),
      segs ≠ [] →
      get_folder_by_segments_go db uid segs parentId acc = specFolderLookup db uid parentId segs := by
  intro segs
  induction segs with
  | nil => intro _ _ h; exact absurd rfl h
  | cons seg rest ih =>
    intro parentId acc _
    simp only [get_folder_by_segments_go, specFolderLookup]
    cases hf : db.folders.find? (folderMatches parentId uid seg) with
    | none => rfl
    | some f =>
      cases rest with
      | nil => simp [get_folder_by_segments_go, specFolderLookup]
      | cons s2 r2 =>
        simp only [List.isEmpty_cons, if_neg]
        exact ih (some f.id) (some f) (by simp)

/-! ### Staged filesystem

A file node records the plain text the Format Normalizer would produce from
its bytes (`text`) and whether that conversion raises (`ok = false` models a
conversion exception inside the format library); the extension dispatch
itself is taken from the file name, as in the source.  `size`, `created` and
`modified` are the `stat` fields of the on-disk file.  Directory listings
keep insertion order; subdirectory forests are a mutual inductive so that
the directory walks below are structurally recursive. -/

structure FileNode where
  name : String
  text : String
  ok : Bool
  size : Nat
  created : Nat
  modified : Nat
deriving Repr, DecidableEq

mutual

inductive FSTree where
  | dir (name : String) (files : List FileNode) (subdirs : FSForest)

inductive FSForest where
  | nil
  | cons (t : FSTree) (ts : FSForest)

end

/-! ### Format Normalizer (`file_utils.py: file_to_plain_text`)

Each supported branch delegates to a format library call on the file bytes;
those calls are abstracted by the `text`/`ok` fields of the node.  The final
branch returns `none` for an unsupported extension, and the surrounding
`try/except` turns any conversion exception into `none` as well. -/

def file_to_plain_text (f : FileNode) : Option String :=
  let ext := lowerString (pathSuffix f.name)
  if ext = ".txt" then (if f.ok then some f.text else none)
  else if ext = ".docx" then (if f.ok then some f.text else none)
  else if ext = ".pdf" then (if f.ok then some f.text else none)
  else if ext = ".csv" then (if f.ok then some f.text else none)
  else if ext = ".htm" || ext = ".html" then (if f.ok then some f.text else none)
  else if ext = ".rtf" then (if f.ok then some f.text else none)
  else none

/-- `MetaDict` from `file_utils.py`: original-file metadata recorded for each
successfully converted file, keyed by the new plain-text path. -/
structure MetaDict where
  filename : String
  path : String
  size : Nat
  created : Nat
  modified : Nat
deriving Repr, DecidableEq

/-- Python dict insert: overwrite in place when the key exists, else append. -/
def insertAssoc (m : List (String × MetaDict)) (k : String) (v : MetaDict) :
    List (String × MetaDict) :=
  if m.any (fun p => p.1 == k) then m.map (fun p => if p.1 == k then (k, v) else p)
  else m ++ [(k, v)]

def lookupAssoc (m : List (String × MetaDict)) (k : String) : Option MetaDict :=
  (m.find? (fun p => p.1 == k)).map (fun p => p.2)

/-- Writing `plain_text_path`: `open(..., "w")` truncates an existing file of
that name, otherwise creates a new one. -/
def upsertFile (onDisk : List FileNode) (nf : FileNode) : List FileNode :=
  if onDisk.any (fun g => g.name == nf.name) then
    onDisk.map (fun g => if g.name == nf.name then nf else g)
  else onDisk ++ [nf]

/-- `path.unlink()`. -/
def removeFile (onDisk : List FileNode) (name : String) : List FileNode :=
  onDisk.filter (fun g => g.name ≠ name)

/-! ### `convert_files_to_plain_text` (`file_utils.py`)

The caller snapshots `tmp_client_dir.rglob("*.*")` before converting, so the
loop runs over the pre-conversion listing (files whose name contains a dot)
while mutating the directory.  `path.with_suffix(".txt")` stays inside the
directory of `path`, so the whole pass factors through a per-directory
transformation.  For each convertible file the source records the original
metadata keyed by the plain-text path, writes the plain text, and then
unlinks the original path — for a file already named `*.txt` the written
path and the unlinked path coincide. -/

def convert_files_to_plain_text_dir (relDir : String) (files0 : List FileNode) :
    List FileNode × List (String × MetaDict) :=
  files0.foldl
    (fun st f =>
      if f.name.data.contains '.' then
        match file_to_plain_text f with
        | none => st
        | some text =>
          let meta : MetaDict := ⟨f.name, relDir ++ "/" ++ f.name, f.size, f.created, f.modified⟩
          let newName := withSuffixTxt f.name
          let m2 := insertAssoc st.2 (relDir ++ "/" ++ newName) meta
          let disk2 := upsertFile st.1 ⟨newName, text, true, text.length, 0, 0⟩
          (removeFile disk2 f.name, m2)
      else st)
    (files0, [])

mutual

def convert_files_to_plain_text : String → FSTree → FSTree × List (String × MetaDict)
  | relParent, .dir name files subs =>
    let rel := if relParent = "" then name else relParent ++ "/" ++ name
    let fm := convert_files_to_plain_text_dir rel files
    let sm := convertSubdirs rel subs
    (.dir name fm.1 sm.1, fm.2 ++ sm.2)

def convertSubdirs : String → FSForest → FSForest × List (String × MetaDict)
  | _, .nil => (.nil, [])
  | rel, .cons t ts =>
    let a := convert_files_to_plain_text rel t
    let b := convertSubdirs rel ts
    (.cons a.1 b.1, a.2 ++ b.2)

end

/-! ### Errors

`IngestErr` covers what can escape the ingestion code paths: a raw Python
`KeyError` from `original_file_map[file_path]`, a raw `FileNotFoundError`
from touching a missing path, and `HTTPException(status_code, detail)`. -/

inductive IngestErr where
  | keyError (key : String)
  | fileNotFound (path : String)
  | http (status_code : Nat) (detail : String)
deriving Repr, DecidableEq

/-! ### Folder Tree Builder (`file_utils.py: add_folder_to_database`) -/

/-- The first `os.listdir` pass: for every plain file directly inside the
current directory, look up its pre-recorded original metadata (a missing key
raises `KeyError`) and add a `Document` row carrying that metadata, with
`dropbox_path = None` and `plain_text_size` taken from the on-disk stat. -/
def addDocsInDir (folder : FolderRow) (uid : Nat) (rel : String) :
    List FileNode → DB → List (String × MetaDict) → Except IngestErr DB
  | [], db, _ => .ok db
  | f :: fs, db, fmap =>
    match lookupAssoc fmap (rel ++ "/" ++ f.name) with
    | none => .error (.keyError (rel ++ "/" ++ f.name))
    | some meta =>
      let d : DocumentRow :=
        ⟨db.nextDocumentId, folder.id, some uid, meta.filename, meta.path,
          meta.size, meta.created, meta.modified, none, some f.size⟩
      addDocsInDir folder uid rel fs
        { db with documents := db.documents ++ [d], nextDocumentId := db.nextDocumentId + 1 }
        fmap

mutual

/-- Create a `Folder` row for the current directory (path relative to the
staging root, linked to the parent via `parent_id` and flushed so its id is
known), then a `Document` row per file directly inside, then — when `drill`
is set — recurse into each subdirectory. -/
def add_folder_to_database (t : FSTree) (relParent : String) (db : DB) (uid : Nat)
    (drill : Bool) (fmap : List (String × MetaDict)) (parentId : Option Nat) :
    Except IngestErr (FolderRow × DB) :=
  match t with
  | .dir name files subs =>
    let rel := if relParent = "" then name else relParent ++ "/" ++ name
    let folder : FolderRow := ⟨db.nextFolderId, rel, name, parentId, some uid⟩
    let db1 : DB :=
      { db with folders := db.folders ++ [folder], nextFolderId := db.nextFolderId + 1 }
    match addDocsInDir folder uid rel files db1 fmap with
    | .error e => .error e
    | .ok db2 =>
      if drill then
        match addSubfolders subs rel db2 uid fmap folder.id with
        | .error e => .error e
        | .ok db3 => .ok (folder, db3)
      else .ok (folder, db2)

def addSubfolders (ts : FSForest) (rel : String) (db : DB) (uid : Nat)
    (fmap : List (String × MetaDict)) (parentFolderId : Nat) : Except IngestErr DB :=
  match ts with
  | .nil => .ok db
  | .cons t rest =>
    match add_folder_to_database t rel db uid true fmap (some parentFolderId) with
    | .error e => .error e
    | .ok fdb => addSubfolders rest rel fdb.2 uid fmap parentFolderId

end

/-! ### Repository reads used by the routers (`file_utils.py`) -/

/-- `select(Document).where(folder_id == folder.id, classification == / != None)`:
a document counts as classified when some `Classification` row references it. -/
def docQuery (db : DB) (folder : FolderRow) (classified : Bool) : List DocumentRow :=
  db.documents.filter (fun d =>
    d.folder_id == folder.id &&
      (if classified then db.classifications.any (fun c => c.document_id == d.id)
       else !(db.classifications.any (fun c => c.document_id == d.id))))

def get_subfolders_in_folder (db : DB) (folder : FolderRow) : List FolderRow :=
  db.folders.filter (fun f => f.parent_id == some folder.id)

/-- `get_documents_in_folder`: with `drill`, the recursively collected
subfolder documents are extended into the result before the current folder
documents.  The `fuel` bound only truncates stores with a `parent_id` cycle,
which the tree builder never creates; every theorem below supplies enough
fuel for its concrete store. -/
def get_documents_in_folder (db : DB) :
    Nat → FolderRow → Bool → Bool → List DocumentRow
  | 0, _, _, _ => []
  | fuel + 1, folder, drill, classified =>
    let current := docQuery db folder classified
    if drill then
      ((get_subfolders_in_folder db folder).map
        (fun sub => get_documents_in_folder db fuel sub true classified)).flatten ++ current
    else current

/-- `get_document_by_path`: split the path, resolve the parent folder by
segments, then select the first document with that folder id and filename. -/
def get_document_by_path (db : DB) (user : UserRow) (path : String) :
    Except IngestErr (Option DocumentRow) :=
  let segments := splitPath path
  if segments.length < 2 then .error (.http 400 "Invalid document path")
  else
    match get_folder_by_segments db user segments.dropLast with
    | none => .error (.http 404 "Document folder not found")
    | some folder =>
      .ok (db.documents.find? (fun d =>
        d.folder_id == folder.id && d.filename == segments.getLastD ""))

/-! ### `add_zipped_folder_to_database` (`file_utils.py`)

The database-visible behaviour of the function body: extract (the extracted
client tree is the `tree` argument here; the on-disk staging lifecycle is
modelled separately below for the cleanup claim), snapshot and convert the
staged files, build the folder tree, upload every converted file, and attach
the returned remote path to the document found by the original relative
path.  The `except Exception` around the body maps every failure to
`HTTPException(500, "Failed to process and add zipped folder")`. -/

mutual

def fileExistsTree : FSTree → List String → Bool
  | .dir nm files subs, seg :: rest =>
    if seg = nm then
      match rest with
      | [] => false
      | [fn] => files.any (fun f => f.name == fn)
      | _ :: _ :: _ => fileExistsForest subs rest
    else false
  | _, [] => false

def fileExistsForest : FSForest → List String → Bool
  | .nil, _ => false
  | .cons t ts, segs => fileExistsTree t segs || fileExistsForest ts segs

end

/-- Opening each converted file for its upload session: the file was unlinked
when its plain-text path coincided with the original path, and `aiofiles.open`
then raises `FileNotFoundError`.  The remote address is a fresh opaque name
under `UPLOAD_DIR`; since its exact value never matters downstream of the
claims, the unique relative key stands in for the uuid. -/
def uploadConvertedFiles (tree1 : FSTree) :
    List String → Except IngestErr (List (String × String))
  | [] => .ok []
  | k :: ks =>
    if fileExistsTree tree1 (splitPath k) then
      match uploadConvertedFiles tree1 ks with
      | .error e => .error e
      | .ok rest => .ok ((k, UPLOAD_DIR ++ "/" ++ k) :: rest)
    else .error (.fileNotFound k)

/-- `document.dropbox_path = dropbox_path; db.add(document)` for the document
resolved from the recorded original path. -/
def setDropboxPaths (user : UserRow) :
    List (String × String) → List (String × MetaDict) → DB → Except IngestErr DB
  | [], _, db => .ok db
  | (relPath, dbxPath) :: rest, fmap, db =>
    match lookupAssoc fmap relPath with
    | none => .error (.keyError relPath)
    | some meta =>
      match get_document_by_path db user meta.path with
      | .error e => .error e
      | .ok none => setDropboxPaths user rest fmap db
      | .ok (some doc) =>
        let docs2 := db.documents.map
          (fun d => if d.id == doc.id then { d with dropbox_path := some dbxPath } else d)
        setDropboxPaths user rest fmap { db with documents := docs2 }

def add_zipped_body (db : DB) (user : UserRow) (tree : FSTree) (drill : Bool) :
    Except IngestErr (FolderRow × DB) :=
  let conv := convert_files_to_plain_text "" tree
  match add_folder_to_database conv.1 "" db user.id drill conv.2 none with
  | .error e => .error e
  | .ok (folder, db1) =>
    match uploadConvertedFiles conv.1 (conv.2.map (fun p => p.1)) with
    | .error e => .error e
    | .ok dropboxPaths =>
      match setDropboxPaths user dropboxPaths conv.2 db1 with
      | .error e => .error e
      | .ok db2 => .ok (folder, db2)

def add_zipped_folder_to_database (db : DB) (user : UserRow) (tree : FSTree)
    (drill : Bool) : Except IngestErr (FolderRow × DB) :=
  match add_zipped_body db user tree drill with
  | .ok r => .ok r
  | .error _ => .error (.http 500 "Failed to process and add zipped folder")

/-! ### Insight router (`routers/insight.py`) -/

structure DocumentResponse where
  id : Nat
  path : String
  folder_id : Nat
  filename : String
  size : Nat
  created : Nat
  modified : Nat
  dropbox_path : Option String
  plain_text_size : Option Nat
deriving Repr, DecidableEq

def generate_document_response (d : DocumentRow) : DocumentResponse :=
  ⟨d.id, d.path, d.folder_id, d.filename, d.size, d.created, d.modified,
    d.dropbox_path, d.plain_text_size⟩

inductive FolderResponse where
  | mk (id : Nat) (path : String) (name : String) (parent_id : Option Nat)
      (documents : List DocumentResponse) (subfolders : List FolderResponse)

/-- `generate_folder_response`: documents of the folder itself (the source
calls `get_documents_in_folder` with its defaults `drill=False,
classified=False`) plus recursively rendered subfolders. -/
def generate_folder_response (db : DB) : Nat → FolderRow → FolderResponse
  | 0, folder => .mk folder.id folder.path folder.name folder.parent_id [] []
  | fuel + 1, folder =>
    .mk folder.id folder.path folder.name folder.parent_id
      ((get_documents_in_folder db (fuel + 1) folder false false).map
        generate_document_response)
      ((get_subfolders_in_folder db folder).map (generate_folder_response db fuel))

/-- `analyze_folder`: strip `.zip` from the uploaded name (Python `replace`
removes every occurrence), short-circuit to the existing tree when the path
already resolves for this owner, otherwise ingest and commit. -/
def analyze_folder (db : DB) (user : UserRow) (zipName : String) (tree : FSTree)
    (drill : Bool) (fuel : Nat) : Except IngestErr (FolderResponse × DB) :=
  let folderName := pyReplace zipName ".zip" ""
  match get_folder_by_path db user folderName with
  | some existing => .ok (generate_folder_response db fuel existing, db)
  | none =>
    match add_zipped_folder_to_database db user tree drill with
    | .error e => .error e
    | .ok (folder, db1) => .ok (generate_folder_response db1 fuel folder, db1)

/-! ### Staging-directory lifecycle of `add_zipped_folder_to_database`

The on-disk effects, with the disk as the list of paths that exist.  The
function creates `tmp_dir`, writes the archive into it, extracts it, deletes
the archive, and on success removes `tmp_client_dir`.  Its `except` handler
performs exactly one cleanup action — `shutil.rmtree(tmp_client_dir)` — and
never touches `tmp_dir` itself or the archive file; `rmtree` on a missing
directory itself raises `FileNotFoundError`, which then propagates instead
of the intended `HTTPException`.  `archive = none` models a corrupt archive
(`extract_zip` raises before creating the client directory); `restOk = false`
models any failure in the post-extraction work (conversion, tree building,
upload). -/

def rmtreePaths (disk : List String) (root : String) : List String :=
  disk.filter (fun p => ¬ (p = root ∨ (root ++ "/").data.isPrefixOf p.data))

def add_zipped_folder_disk (user : UserRow) (zipName : String)
    (archive : Option (List String)) (restOk : Bool) :
    Except IngestErr Unit × List String :=
  let tmpDir := generate_tmp_dir user
  let zipPath := tmpDir ++ "/" ++ zipName
  let clientDir := tmpDir ++ "/" ++ stemOf zipName
  let disk1 := [tmpDir, zipPath]
  match archive with
  | none =>
    if disk1.any (fun p => p == clientDir) then
      (.error (.http 500 "Failed to process and add zipped folder"), rmtreePaths disk1 clientDir)
    else
      (.error (.fileNotFound clientDir), disk1)
  | some entries =>
    let disk2 := disk1 ++ [clientDir] ++ entries.map (fun e => clientDir ++ "/" ++ e)
    let disk3 := disk2.filter (fun p => p ≠ zipPath)
    if restOk then (.ok (), rmtreePaths disk3 clientDir)
    else (.error (.http 500 "Failed to process and add zipped folder"), rmtreePaths disk3 clientDir)

/-! ### Remote Transfer upload (`file_utils.py: upload_files_to_dropbox`)

The interaction with the blob store as an event trace.  The source requests
one batch of sessions, then for every file reads the whole file into memory
(`content = await file.read()`) and issues a single `append` carrying all of
its bytes, followed by the closing empty append, and finally one batch
finish.  A session-count mismatch raises inside the `try`, so the caller
observes the generic transfer failure.  The per-file uuid remote naming is
orthogonal to the trace and elided. -/

inductive DbxEvent where
  | startBatch (numSessions : Nat)
  | append (sessionId : Nat) (payload : Nat) (offset : Nat) (close : Bool)
  | finishBatch (numEntries : Nat)
deriving Repr, DecidableEq

def upload_files_to_dropbox (sessionIds : List Nat) (fileSizes : List Nat) :
    Except IngestErr (List DbxEvent) :=
  if sessionIds.length ≠ fileSizes.length then
    .error (.http 500 "Failed to upload file(s) to Dropbox")
  else
    .ok ([DbxEvent.startBatch fileSizes.length] ++
      (fileSizes.zip sessionIds).flatMap
        (fun p => [DbxEvent.append p.2 p.1 0 false, DbxEvent.append p.2 0 p.1 true]) ++
      [DbxEvent.finishBatch fileSizes.length])

/-! ### Classification (`routers/classification.py`) -/

/-- One engine result before normalization; the score is an opaque payload. -/
structure RawResult where
  label : String
  score : Nat
deriving Repr, DecidableEq

/-- The label-normalization loop body of `classify_batch`.  The star branch
only fires for labels ending in the plural `" stars"`; the free-text branches
compare the lowered label against the literal lists
`["very  negative", "negative"]`, `["neutral"]`, `["positive", "very  positive"]`
(the `very` entries contain two spaces in the source).  `none` models the
`ValueError` from `int(...)` on a malformed star label. -/
def normalize_label (raw : String) : Option String :=
  let label := lowerString raw
  let afterStars : Option String :=
    if strEndsWith label " stars" then
      match parseInt? ((strSplitOn label " ").headD "") with
      | none => none
      | some stars =>
        if stars ≤ 2 then some "Negative"
        else if stars = 3 then some "Neutral"
        else some "Positive"
    else some raw
  match afterStars with
  | none => none
  | some r =>
    if label = "very  negative" || label = "negative" then some "Negative"
    else if label = "neutral" then some "Neutral"
    else if label = "positive" || label = "very  positive" then some "Positive"
    else some r

/-- `classify_batch`: the engine scores each text of the batch in input order
(the order-preserving engine contract of the spec), then every raw label is
normalized in place. -/
def classify_batch (engine : String → RawResult) (texts : List String) :
    Option (List RawResult) :=
  (texts.map engine).mapM
    (fun r => (normalize_label r.label).map (fun l => { r with label := l }))

/-- The batching loop of `classify_folder`: for `i in range(0, len(local_paths),
batch_size)` classify `local_paths[i:i+batch_size]` and zip the results with
`unclassified_documents[i:i+batch_size]` (Python `zip` truncates to the
shorter list).  A zero batch size makes `range` raise `ValueError`; the fuel
is instantiated by the caller with the text count plus one, which always
suffices because every iteration consumes at least one text. -/
def classify_loop (engine : String → RawResult) :
    Nat → Nat → List DocumentRow → List String → Option (List (DocumentRow × RawResult))
  | _, 0, _, _ => none
  | _, _ + 1, _, [] => some []
  | 0, _ + 1, _, _ :: _ => none
  | fuel + 1, b + 1, docs, t :: ts =>
    match classify_batch engine ((t :: ts).take (b + 1)) with
    | none => none
    | some results =>
      match classify_loop engine fuel (b + 1) (docs.drop (b + 1)) ((t :: ts).drop (b + 1)) with
      | none => none
      | some rest => some ((docs.take (b + 1)).zip results ++ rest)

/-- Append one `Classification` row per `(document, result)` pair, in pair
order, assigning ids as the commit would. -/
def addClassificationRows (uid : Nat) :
    List (DocumentRow × RawResult) → DB → List ClassificationRow × DB
  | [], db => ([], db)
  | (doc, res) :: rest, db =>
    let row : ClassificationRow := ⟨db.nextClassificationId, doc.id, some uid, res.label, res.score⟩
    let out := addClassificationRows uid rest
      { db with classifications := db.classifications ++ [row],
                nextClassificationId := db.nextClassificationId + 1 }
    (row :: out.1, out.2)

/-- Error type for the classification endpoint: `HTTPException`s carry status
and detail; `exn` stands for any other raised exception. -/
inductive ClsErr where
  | http (status_code : Nat) (detail : String)
  | exn
deriving Repr, DecidableEq

/-- The body of the `classify_folder` endpoint, inside its `try`.  The blob
store maps a remote path to the text the downloaded file holds; `engine` is
the classification engine. -/
def classify_folder_body (db : DB) (user : UserRow) (folderPath : String)
    (engine : String → RawResult) (blobStore : String → String)
    (batchSize fuel : Nat) : Except ClsErr (List ClassificationRow × DB) :=
  match get_folder_by_path db user folderPath with
  | none => .error (.http 404 "Folder not found")
  | some folder =>
    let unclassified := get_documents_in_folder db fuel folder true false
    let classified := get_documents_in_folder db fuel folder true true
    if unclassified.isEmpty && classified.isEmpty then
      .error (.http 400 "No documents in folder to classify")
    else
      let dropboxPaths := unclassified.filterMap (fun d => d.dropbox_path)
      let localTexts := dropboxPaths.map blobStore
      match classify_loop engine (localTexts.length + 1) batchSize unclassified localTexts with
      | none => .error .exn
      | some pairs =>
        let committed := addClassificationRows user.id pairs db
        let old := committed.2.classifications.filter
          (fun c => classified.any (fun d => d.id == c.document_id))
        .ok (committed.1 ++ old, committed.2)

/-- The endpoint with its `except Exception` handler: every failure inside the
body — the deliberately raised `HTTPException(404)` and `HTTPException(400)`
included — is caught, logged, and re-raised as the generic
`HTTPException(500, "Sentiment classification failed")`. -/
def classify_folder (db : DB) (user : UserRow) (folderPath : String)
    (engine : String → RawResult) (blobStore : String → String)
    (batchSize fuel : Nat) : Except ClsErr (List ClassificationRow × DB) :=
  match classify_folder_body db user folderPath engine blobStore batchSize fuel with
  | .ok r => .ok r
  | .error _ => .error (.http 500 "Sentiment classification failed")

/-! ## Concrete fixtures used by the theorems -/

def user1 : UserRow := ⟨1, "Mock User", "mock@example.com"⟩

/-- Same owner identity as `user1` (id and display name), different email. -/
def user1b : UserRow := ⟨1, "Mock User", "other@example.com"⟩

def folderSample : FolderRow := ⟨1, "sample", "sample", none, some 1⟩

def dbWithSample : DB := ⟨[folderSample], [], [], 2, 1, 1⟩

def mkTxtFile (n : String) : FileNode := ⟨n, "sample text", true, 20, 0, 0⟩

/-- One folder `sample` holding five normalizable `.txt` files. -/
def sampleTxtTree : FSTree :=
  .dir "sample"
    [mkTxtFile "Project 1.txt", mkTxtFile "Project 2.txt", mkTxtFile "Project 3.txt",
      mkTxtFile "Project 4.txt", mkTxtFile "Project 5.txt"] .nil

/-- One folder holding an unsupported file next to a convertible sibling. -/
def mixedTree : FSTree :=
  .dir "sample" [⟨"img.png", "", true, 3, 0, 0⟩, ⟨"Project.docx", "hello", true, 7, 0, 0⟩] .nil

def docNoBlob : DocumentRow := ⟨1, 1, some 1, "a.txt", "sample/a.txt", 5, 0, 0, none, some 5⟩

def docWithBlob : DocumentRow :=
  ⟨2, 1, some 1, "b.txt", "sample/b.txt", 5, 0, 0, some "/uploads/u2.txt", some 5⟩

/-- Folder `sample` with two unclassified documents, the first of which never
got a remote blob reference (the recoverable inconsistency the data-model
section of the spec itself describes). -/
def dbTwoDocs : DB := ⟨[folderSample], [docNoBlob, docWithBlob], [], 2, 3, 1⟩

def engine2 : String → RawResult :=
  fun t => if t = "good text" then ⟨"positive", 90⟩ else ⟨"negative", 10⟩

def blob2 : String → String := fun _ => "good text"

def constEngine : String → RawResult := fun _ => ⟨"positive", 0⟩

def constBlob : String → String := fun _ => ""

/-! ## Claims -/

/-- Claim C7: folder path lookup resolves a slash-separated path one segment
at a time — at each step it searches for the first Folder whose `parent_id`
is the previously resolved id (null at the root), whose `name` equals the
segment exactly (string equality, hence case-sensitive) and whose owner is
the requesting user; any segment without a match, middle segments included,
yields not-found immediately and no partial match is ever returned.  The
implementation loop coincides with `specFolderLookup`, the direct rendering
of that contract. -/
theorem get_folder_by_segments_resolves_per_segment (db : DB) (user : UserRow)
    (segments : List String) :
    get_folder_by_segments db user segments = specFolderLookup db user.id none segments := by
  cases segments with
  | nil => rfl
  | cons s r => exact go_eq_spec db user.id (s :: r) none none (by simp)

/-- Claim C10 counterexample: the claim asserts that two distinct ingestion
invocations by the same owner use distinct staging directories.  In the
source the staging path is computed from the owner row alone — there is no
per-invocation component — so every invocation for `user1` yields this very
constant, exhibited here; the paths of any two invocations for `user1` are
therefore equal, not distinct. -/
theorem generate_tmp_dir_reused_for_same_owner :
    generate_tmp_dir user1 = generate_tmp_dir user1 ∧
    generate_tmp_dir user1 = "docusight/temp/1_mock_user" :=
  ⟨rfl, by decide⟩

/-- Claim C10 amended: the staging directory is keyed by the owner only — it
depends on nothing but the owner id and display name, so invocations for the
same owner reuse one directory (and concurrent same-owner ingestions share
it). -/
theorem generate_tmp_dir_keyed_by_owner_only (u1 u2 : UserRow)
    (hid : u1.id = u2.id) (hname : u1.display_name = u2.display_name) :
    generate_tmp_dir u1 = generate_tmp_dir u2 := by
  simp [generate_tmp_dir, hid, hname]

theorem generate_tmp_dir_keyed_by_owner_only_witness :
    generate_tmp_dir user1 = generate_tmp_dir user1b :=
  generate_tmp_dir_keyed_by_owner_only user1 user1b rfl rfl

/-- Claim C3 (code-bug evaluation): the normalization table the spec states
fails on three of its rows.  The star branch only fires for labels ending in
the plural `" stars"`, so `"1 star"` passes through unchanged; the free-text
lists spell `"very  negative"` and `"very  positive"` with two spaces, so the
single-spaced labels also pass through unchanged.  The remaining rows of the
table behave as the spec states (case-insensitively). -/
theorem normalize_label_table :
    normalize_label "1 star" = some "1 star" ∧
    normalize_label "very negative" = some "very negative" ∧
    normalize_label "very positive" = some "very positive" ∧
    normalize_label "2 stars" = some "Negative" ∧
    normalize_label "3 stars" = some "Neutral" ∧
    normalize_label "4 stars" = some "Positive" ∧
    normalize_label "5 stars" = some "Positive" ∧
    normalize_label "Negative" = some "Negative" ∧
    normalize_label "NEUTRAL" = some "Neutral" ∧
    normalize_label "positive" = some "Positive" := by
  decide

/-- Claim C8 (code-bug evaluation): the transfer does issue one batch start,
one closing empty append per session and one batch finish, but it does not
stream in bounded chunks — each file is read whole and appended in a single
call, so a 2 MiB file produces an append of 2097152 bytes, above the only
configured chunk size (1 MiB). -/
theorem upload_appends_whole_file :
    upload_files_to_dropbox [7] [2097152] =
      .ok [DbxEvent.startBatch 1, DbxEvent.append 7 2097152 0 false,
        DbxEvent.append 7 0 2097152 true, DbxEvent.finishBatch 1] ∧
    ZIP_FILE_READ_CHUNK_SIZE < 2097152 :=
  ⟨rfl, by decide⟩

/-- Claim C9 (code-bug evaluation): for a folder path that does not resolve,
the endpoint body raises the caller-attributable 404, but the surrounding
catch-all converts it into the generic 500 used for engine and transfer
failures, so the caller cannot distinguish the two. -/
theorem classify_missing_folder_is_500 :
    classify_folder emptyDB user1 "missing" constEngine constBlob CLASSIFICATION_BATCH_SIZE 4 =
      .error (.http 500 "Sentiment classification failed") ∧
    classify_folder_body emptyDB user1 "missing" constEngine constBlob CLASSIFICATION_BATCH_SIZE 4 =
      .error (.http 404 "Folder not found") :=
  ⟨rfl, rfl⟩

/-- Claim C6: when the top-level path of the uploaded archive already
resolves to an existing Folder for the requesting owner, `analyze_folder`
short-circuits — it returns the rendered existing tree together with the
store unchanged (zero new Folder rows and zero new Document rows). -/
theorem analyze_folder_short_circuits (db : DB) (user : UserRow) (zipName : String)
    (tree : FSTree) (drill : Bool) (fuel : Nat) (f : FolderRow)
    (h : get_folder_by_path db user (pyReplace zipName ".zip" "") = some f) :
    analyze_folder db user zipName tree drill fuel =
      .ok (generate_folder_response db fuel f, db) := by
  simp [analyze_folder, h]

theorem analyze_folder_short_circuits_witness :
    analyze_folder dbWithSample user1 "sample.zip" (FSTree.dir "t" [] .nil) true 3 =
      .ok (generate_folder_response dbWithSample 3 folderSample, dbWithSample) :=
  analyze_folder_short_circuits dbWithSample user1 "sample.zip" (FSTree.dir "t" [] .nil)
    true 3 folderSample (by decide)

/-- Claim C1 (code-bug evaluation): ingesting one folder of five normalizable
`.txt` files does not yield five Document rows.  For a `.txt` file the
plain-text path `path.with_suffix(".txt")` equals the original path, so the
converter writes the file and then unlinks that same path: after conversion
the staged directory is empty while all five metadata entries exist, the
tree builder creates one Folder row and zero Document rows, and the upload
step then fails on the missing files, aborting the whole ingestion with the
generic 500. -/
theorem txt_ingestion_loses_documents :
    (convert_files_to_plain_text "" sampleTxtTree).1 = FSTree.dir "sample" [] .nil ∧
    (convert_files_to_plain_text "" sampleTxtTree).2.length = 5 ∧
    add_folder_to_database (convert_files_to_plain_text "" sampleTxtTree).1 "" emptyDB 1 true
        (convert_files_to_plain_text "" sampleTxtTree).2 none =
      .ok (⟨1, "sample", "sample", none, some 1⟩,
        ⟨[⟨1, "sample", "sample", none, some 1⟩], [], [], 2, 1, 1⟩) ∧
    add_zipped_folder_to_database emptyDB user1 sampleTxtTree true =
      .error (.http 500 "Failed to process and add zipped folder") :=
  ⟨rfl, rfl, rfl, rfl⟩

/-- Claim C4 (code-bug evaluation): an unsupported file is not silently
excluded.  `img.png` is skipped by the converter and therefore stays on disk
with no metadata entry; the tree builder then hits it in `os.listdir`, the
metadata lookup raises `KeyError`, and the whole ingestion — the convertible
sibling `Project.docx` included — aborts with the generic 500 instead of
ingesting the sibling. -/
theorem unsupported_file_aborts_ingestion :
    add_folder_to_database (convert_files_to_plain_text "" mixedTree).1 "" emptyDB 1 true
        (convert_files_to_plain_text "" mixedTree).2 none =
      .error (.keyError "sample/img.png") ∧
    add_zipped_folder_to_database emptyDB user1 mixedTree true =
      .error (.http 500 "Failed to process and add zipped folder") :=
  ⟨rfl, rfl⟩

/-- Claim C5 (code-bug evaluation): cleanup after a failure removes only the
extracted client directory, never the staging directory or the archive file.
For a corrupt archive the client directory does not exist yet, so the
cleanup itself raises `FileNotFoundError` and the staging directory still
holds the written archive afterwards; and even when a later stage fails
after extraction, the staging directory itself survives the cleanup. -/
theorem failed_extraction_leaves_staging :
    add_zipped_folder_disk user1 "sample.zip" none true =
      (.error (.fileNotFound "docusight/temp/1_mock_user/sample"),
        ["docusight/temp/1_mock_user", "docusight/temp/1_mock_user/sample.zip"]) ∧
    (add_zipped_folder_disk user1 "sample.zip" (some ["a.txt"]) false).2 =
      ["docusight/temp/1_mock_user"] :=
  ⟨rfl, rfl⟩

/-- Claim C2 (code-bug evaluation): the persisted pairing does not match the
submitted texts.  The download list filters out documents without a remote
blob reference, but the zip pairs the batch results with the unfiltered
document slice: with `docNoBlob` (no reference, text never submitted) ahead
of `docWithBlob`, the single result computed from the text of `docWithBlob`
is persisted onto `docNoBlob` (document id 1), and `docWithBlob` receives no
classification at all. -/
theorem misaligned_classification_rows :
    classify_folder dbTwoDocs user1 "sample" engine2 blob2 CLASSIFICATION_BATCH_SIZE 4 =
      .ok ([⟨1, 1, some 1, "Positive", 90⟩],
        ⟨[folderSample], [docNoBlob, docWithBlob], [⟨1, 1, some 1, "Positive", 90⟩], 2, 3, 2⟩) :=
  rfl

end DocuSight

